import Mathlib

/-!
Shallow embedding of the request-driven publication controller in
src/vigir_crop_decimate_nodelet/src/crop_decimate_nodelet.cpp
(class vigir_image_proc::CropDecimateNodelet).

Frequencies (a float32 request field and a double parameter in the source)
are modelled as rationals; the pixel transform CropDecimate::processImage is
an external collaborator and is a parameter of every handler; publications
are recorded in an explicit Output record (number of calls to the publish
primitive, number of transform invocations, list of actually published
pairs).  A ros::Timer handle is modelled as an optional handle carrying a
creation sequence number (object identity) and its period.
-/

set_option autoImplicit false

namespace VigirCropDecimate

/-- Abstract image message: only identity of the payload matters here. -/
structure Image where
  data : Nat
deriving DecidableEq

/-- Abstract camera-info message. -/
structure CameraInfo where
  data : Nat
deriving DecidableEq

/-- Region of interest carried by the request message. -/
structure RegionOfInterest where
  x_offset : Nat
  y_offset : Nat
  height : Nat
  width : Nat
deriving DecidableEq

/-- The inbound request message, mirroring the fields the nodelet reads:
mode, binning factors, region of interest, publish frequency. -/
structure DownSampledImageRequest where
  mode : Nat
  binning_x : Nat
  binning_y : Nat
  roi : RegionOfInterest
  publish_frequency : Rat
deriving DecidableEq

/-- Modelled from the spec: the mode constants of the external message
package flor_perception_msgs (its definition file is not under src/).  The
spec lists the modes ALL, ONCE, PERIODIC (called PUBLISH_FREQ in the code)
and a default free-run; only distinctness of the constants is relied on. -/
def DownSampledImageRequest.ONCE : Nat := 0

/-- Modelled from the spec: mode constant PUBLISH_FREQ (the PERIODIC mode). -/
def DownSampledImageRequest.PUBLISH_FREQ : Nat := 1

/-- Modelled from the spec: mode constant ALL (continuous passthrough). -/
def DownSampledImageRequest.ALL : Nat := 2

/-- The crop/decimate configuration derived from a request. -/
structure CropDecimateConfig where
  decimation_x : Nat
  decimation_y : Nat
  width : Nat
  height : Nat
  x_offset : Nat
  y_offset : Nat
deriving DecidableEq, Inhabited

/-- The external transform collaborator CropDecimate::processImage:
none models a false return (failure), some carries the produced pair. -/
abbrev Transform := CropDecimateConfig → Image → CameraInfo → Option (Image × CameraInfo)

/-- A created ros::Timer: a creation sequence number giving the timer its
identity plus the period it was created with. -/
structure TimerHandle where
  id : Nat
  period : Rat
deriving DecidableEq

/-- The nodelet's mutable fields that the controller logic touches. -/
structure NodeletState where
  last_image_msg : Option Image
  last_info_msg : Option CameraInfo
  last_request : Option DownSampledImageRequest
  crop_decimate_config : CropDecimateConfig
  crop_decimate_configured : Bool
  image_publish_timer : Option TimerHandle
  timer_seq : Nat
  sub_active : Bool
  max_video_framerate : Rat
deriving DecidableEq

/-- Observable effect of one handler invocation: how many times the publish
primitive publishCroppedImage was entered, how many times the external
transform was invoked, and which pairs were actually published. -/
structure Output where
  attempts : Nat
  transformCalls : Nat
  published : List (Image × CameraInfo)
deriving DecidableEq

/-- The empty effect. -/
def noOutput : Output := ⟨0, 0, []⟩

/-- Concatenation of effects of successive handler invocations. -/
def Output.append (a b : Output) : Output :=
  ⟨a.attempts + b.attempts, a.transformCalls + b.transformCalls,
   a.published ++ b.published⟩

/-- std::min on the rationals modelling the doubles of the source:
returns the first argument on ties, as std::min does. -/
def ratMin (a b : Rat) : Rat := if a ≤ b then a else b

/-- CropDecimateNodelet::publishCroppedImage: if either cached message is
absent, do nothing; otherwise invoke the transform once and publish its
output exactly when it succeeds.  It mutates no controller state, which the
embedding reflects by returning only an Output. -/
def publishCroppedImage (tf : Transform) (s : NodeletState) : Output :=
  match s.last_image_msg, s.last_info_msg with
  | some img, some info =>
      match tf s.crop_decimate_config img info with
      | some out => ⟨1, 1, [out]⟩
      | none => ⟨1, 1, []⟩
  | _, _ => ⟨1, 0, []⟩

/-- CropDecimateNodelet::connectCb: with zero output subscribers shut the
camera subscription down, otherwise subscribe when not already subscribed. -/
def connectCb (numSubscribers : Nat) (s : NodeletState) : NodeletState :=
  if numSubscribers = 0 then { s with sub_active := false }
  else if s.sub_active = false then { s with sub_active := true }
  else s

/-- CropDecimateNodelet::imageCb: cache the arriving pair, return when no
request was ever received, publish when the current mode is ALL. -/
def imageCb (tf : Transform) (s : NodeletState) (image_msg : Image)
    (info_msg : CameraInfo) : NodeletState × Output :=
  let s1 := { s with last_image_msg := some image_msg,
                     last_info_msg := some info_msg }
  match s1.last_request with
  | none => (s1, noOutput)
  | some req =>
      if req.mode = DownSampledImageRequest.ALL then (s1, publishCroppedImage tf s1)
      else (s1, noOutput)

/-- The crop configuration imageRequestCb derives from a request. -/
def requestConfig (req : DownSampledImageRequest) : CropDecimateConfig :=
  ⟨req.binning_x, req.binning_y, req.roi.width, req.roi.height,
   req.roi.x_offset, req.roi.y_offset⟩

/-- CropDecimateNodelet::imageRequestCb: store the request and its derived
configuration, then dispatch on the mode.  ONCE and the default branch
publish once; PUBLISH_FREQ publishes once and, when the capped frequency
min(max_video_framerate, publish_frequency) is positive, assigns a freshly
created timer with period 1/capped to the timer member (the assignment is
the only point where a previously armed timer is stopped). -/
def imageRequestCb (tf : Transform) (s : NodeletState)
    (req : DownSampledImageRequest) : NodeletState × Output :=
  let s1 := { s with last_request := some req,
                     crop_decimate_config := requestConfig req,
                     crop_decimate_configured := true }
  if req.mode = DownSampledImageRequest.ONCE then
    (s1, publishCroppedImage tf s1)
  else if req.mode = DownSampledImageRequest.PUBLISH_FREQ then
    let out := publishCroppedImage tf s1
    let capped := ratMin s1.max_video_framerate req.publish_frequency
    if 0 < capped then
      ({ s1 with image_publish_timer := some ⟨s1.timer_seq, 1 / capped⟩,
                 timer_seq := s1.timer_seq + 1 }, out)
    else (s1, out)
  else
    (s1, publishCroppedImage tf s1)

/-- CropDecimateNodelet::publishTimerCb: the source dereferences
last_request_ without a null check, modelled by returning none in that
case; otherwise the tick is a no-op unless the mode is PUBLISH_FREQ. -/
def publishTimerCb (tf : Transform) (s : NodeletState) :
    Option (NodeletState × Output) :=
  match s.last_request with
  | none => none
  | some req =>
      if req.mode ≠ DownSampledImageRequest.PUBLISH_FREQ then some (s, noOutput)
      else some (s, publishCroppedImage tf s)

/-- The asynchronous events the nodelet reacts to. -/
inductive Event where
  | frame (image_msg : Image) (info_msg : CameraInfo)
  | request (req : DownSampledImageRequest)
  | timerTick
  | connect (numSubscribers : Nat)
deriving DecidableEq

/-- One event step.  A timer tick is only delivered while a timer is armed;
the defensive fallback for the (unreachable, see the timer invariant below)
null-request tick leaves the state unchanged. -/
def step (tf : Transform) (s : NodeletState) : Event → NodeletState × Output
  | Event.frame img info => imageCb tf s img info
  | Event.request req => imageRequestCb tf s req
  | Event.timerTick =>
      match s.image_publish_timer with
      | none => (s, noOutput)
      | some _ =>
          match publishTimerCb tf s with
          | some r => r
          | none => (s, noOutput)
  | Event.connect n => (connectCb n s, noOutput)

/-- Run a sequence of events, accumulating the observable output. -/
def runFrom (tf : Transform) (s : NodeletState) :
    List Event → NodeletState × Output
  | [] => (s, noOutput)
  | ev :: evs =>
      let r1 := step tf s ev
      let r2 := runFrom tf r1.1 evs
      (r2.1, Output.append r1.2 r2.2)

/-- The state onInit leaves behind: nothing cached, nothing requested, no
timer, not subscribed; max_video_framerate comes from a parameter. -/
def initState (maxRate : Rat) : NodeletState :=
  ⟨none, none, none, default, false, none, 0, false, maxRate⟩

/-- Reachability from the initial state under a fixed transform and
framerate cap. -/
def reachable (tf : Transform) (maxRate : Rat) (s : NodeletState) : Prop :=
  ∃ evs : List Event, (runFrom tf (initState maxRate) evs).1 = s

/-- States from which request-free event sequences produce no publish
attempt: a request is current, its mode is not ALL, and if its mode is
PUBLISH_FREQ then no timer is armed. -/
def QuietState (s : NodeletState) : Prop :=
  ∃ r, s.last_request = some r ∧ r.mode ≠ DownSampledImageRequest.ALL ∧
    (r.mode = DownSampledImageRequest.PUBLISH_FREQ → s.image_publish_timer = none)

/-- A transform that always succeeds, echoing its inputs. -/
def tfId : Transform := fun _ img info => some (img, info)

/-- A zero region of interest for concrete requests. -/
def roi0 : RegionOfInterest := ⟨0, 0, 0, 0⟩

/-- Concrete periodic request at 5 Hz. -/
def reqPeriodic5 : DownSampledImageRequest :=
  ⟨DownSampledImageRequest.PUBLISH_FREQ, 1, 1, roi0, 5⟩

/-- Concrete periodic request at 0 Hz. -/
def reqPeriodic0 : DownSampledImageRequest :=
  ⟨DownSampledImageRequest.PUBLISH_FREQ, 1, 1, roi0, 0⟩

/-- Concrete periodic request at 10 Hz. -/
def reqPeriodic10 : DownSampledImageRequest :=
  ⟨DownSampledImageRequest.PUBLISH_FREQ, 1, 1, roi0, 10⟩

/-- Concrete ONCE request. -/
def reqOnce : DownSampledImageRequest :=
  ⟨DownSampledImageRequest.ONCE, 1, 1, roi0, 0⟩

/-- Concrete request with an unrecognized mode. -/
def reqUnknown : DownSampledImageRequest := ⟨7, 1, 1, roi0, 0⟩

/-- A concrete image. -/
def img0 : Image := ⟨42⟩

/-- A concrete camera info. -/
def info0 : CameraInfo := ⟨43⟩

/-- Concrete ALL-mode request. -/
def reqAll : DownSampledImageRequest :=
  ⟨DownSampledImageRequest.ALL, 1, 1, roi0, 0⟩

/-- State reached from the initial state by one PERIODIC request at 5 Hz:
a 5 Hz timer (creation sequence number 0) is armed. -/
def sPeriodic5 : NodeletState :=
  (runFrom tfId (initState 100) [Event.request reqPeriodic5]).1

/-- State reached by a PERIODIC request at 5 Hz followed by a ONCE request:
the current mode is ONCE but the old timer is still armed. -/
def sStale : NodeletState :=
  (runFrom tfId (initState 100)
    [Event.request reqPeriodic5, Event.request reqOnce]).1

/-- State reached by caching a frame, a PERIODIC request at 5 Hz, then a
PERIODIC request at 0 Hz: the current mode is PUBLISH_FREQ with requested
frequency 0, yet the old 5 Hz timer is still armed. -/
def sStaleFreq0 : NodeletState :=
  (runFrom tfId (initState 100)
    [Event.frame img0 info0, Event.request reqPeriodic5,
     Event.request reqPeriodic0]).1

/-- State reached from the initial state by one ALL-mode request. -/
def sAll : NodeletState :=
  (runFrom tfId (initState 100) [Event.request reqAll]).1

open DownSampledImageRequest in
theorem mode_constants_distinct :
    ONCE ≠ PUBLISH_FREQ ∧ ONCE ≠ ALL ∧ PUBLISH_FREQ ≠ ALL := by
  refine ⟨?_, ?_, ?_⟩ <;> decide

theorem publishCroppedImage_attempts (tf : Transform) (s : NodeletState) :
    (publishCroppedImage tf s).attempts = 1 := by
  unfold publishCroppedImage
  cases s.last_image_msg <;> cases s.last_info_msg <;> simp
  case some.some img info => cases tf s.crop_decimate_config img info <;> simp

theorem publishCroppedImage_published_of_no_image (tf : Transform)
    (s : NodeletState) (h : s.last_image_msg = none) :
    (publishCroppedImage tf s).published = [] := by
  unfold publishCroppedImage
  rw [h]

theorem imageRequestCb_fst (tf : Transform) (s : NodeletState)
    (req : DownSampledImageRequest) :
    (imageRequestCb tf s req).1 =
      if req.mode = DownSampledImageRequest.PUBLISH_FREQ ∧
          0 < ratMin s.max_video_framerate req.publish_frequency then
        { s with last_request := some req,
                 crop_decimate_config := requestConfig req,
                 crop_decimate_configured := true,
                 image_publish_timer :=
                   some ⟨s.timer_seq,
                         1 / ratMin s.max_video_framerate req.publish_frequency⟩,
                 timer_seq := s.timer_seq + 1 }
      else
        { s with last_request := some req,
                 crop_decimate_config := requestConfig req,
                 crop_decimate_configured := true } := by
  unfold imageRequestCb
  by_cases h1 : req.mode = DownSampledImageRequest.ONCE
  · have h2 : req.mode ≠ DownSampledImageRequest.PUBLISH_FREQ := by
      rw [h1]; decide
    simp [h1, h2, DownSampledImageRequest.ONCE, DownSampledImageRequest.PUBLISH_FREQ]
  · by_cases h2 : req.mode = DownSampledImageRequest.PUBLISH_FREQ
    · by_cases h3 : 0 < ratMin s.max_video_framerate req.publish_frequency
      · simp [h1, h2, h3, DownSampledImageRequest.ONCE, DownSampledImageRequest.PUBLISH_FREQ]
      · simp [h1, h2, h3, DownSampledImageRequest.ONCE, DownSampledImageRequest.PUBLISH_FREQ]
    · simp [h1, h2]

theorem imageRequestCb_snd (tf : Transform) (s : NodeletState)
    (req : DownSampledImageRequest) :
    (imageRequestCb tf s req).2 =
      publishCroppedImage tf
        { s with last_request := some req,
                 crop_decimate_config := requestConfig req,
                 crop_decimate_configured := true } := by
  unfold imageRequestCb
  by_cases h1 : req.mode = DownSampledImageRequest.ONCE
  · simp [h1]
  · by_cases h2 : req.mode = DownSampledImageRequest.PUBLISH_FREQ
    · by_cases h3 : 0 < ratMin s.max_video_framerate req.publish_frequency
      · simp [h1, h2, h3, DownSampledImageRequest.ONCE, DownSampledImageRequest.PUBLISH_FREQ]
      · simp [h1, h2, h3, DownSampledImageRequest.ONCE, DownSampledImageRequest.PUBLISH_FREQ]
    · simp [h1, h2]

theorem imageRequestCb_attempts (tf : Transform) (s : NodeletState)
    (req : DownSampledImageRequest) :
    (imageRequestCb tf s req).2.attempts = 1 := by
  rw [imageRequestCb_snd, publishCroppedImage_attempts]

theorem imageCb_fst (tf : Transform) (s : NodeletState) (img : Image)
    (info : CameraInfo) :
    (imageCb tf s img info).1 =
      { s with last_image_msg := some img, last_info_msg := some info } := by
  unfold imageCb
  cases h : s.last_request with
  | none => simp [h]
  | some req =>
      by_cases hm : req.mode = DownSampledImageRequest.ALL <;> simp [h, hm]

theorem imageCb_snd_of_no_request (tf : Transform) (s : NodeletState)
    (img : Image) (info : CameraInfo) (h : s.last_request = none) :
    (imageCb tf s img info).2 = noOutput := by
  unfold imageCb
  simp [h]

theorem imageCb_snd_of_all (tf : Transform) (s : NodeletState) (img : Image)
    (info : CameraInfo) (req : DownSampledImageRequest)
    (h : s.last_request = some req) (hm : req.mode = DownSampledImageRequest.ALL) :
    (imageCb tf s img info).2 =
      publishCroppedImage tf
        { s with last_image_msg := some img, last_info_msg := some info } := by
  unfold imageCb
  simp [h, hm]

theorem imageCb_snd_of_not_all (tf : Transform) (s : NodeletState) (img : Image)
    (info : CameraInfo) (req : DownSampledImageRequest)
    (h : s.last_request = some req)
    (hm : req.mode ≠ DownSampledImageRequest.ALL) :
    (imageCb tf s img info).2 = noOutput := by
  unfold imageCb
  simp [h, hm]

theorem publishTimerCb_isSome (tf : Transform) (s : NodeletState)
    (h : s.last_request ≠ none) : (publishTimerCb tf s).isSome := by
  unfold publishTimerCb
  cases hr : s.last_request with
  | none => exact absurd hr h
  | some req =>
      by_cases hm : req.mode = DownSampledImageRequest.PUBLISH_FREQ <;> simp [hm]

theorem publishTimerCb_of_not_freq (tf : Transform) (s : NodeletState)
    (req : DownSampledImageRequest) (h : s.last_request = some req)
    (hm : req.mode ≠ DownSampledImageRequest.PUBLISH_FREQ) :
    publishTimerCb tf s = some (s, noOutput) := by
  unfold publishTimerCb
  simp [h, hm]

theorem step_fst_tick (tf : Transform) (s : NodeletState) :
    (step tf s Event.timerTick).1 = s := by
  unfold step
  cases s.image_publish_timer with
  | none => simp
  | some t =>
      simp only
      unfold publishTimerCb
      cases s.last_request with
      | none => simp
      | some req =>
          by_cases hm : req.mode = DownSampledImageRequest.PUBLISH_FREQ <;> simp [hm]

theorem connectCb_fields (n : Nat) (s : NodeletState) :
    (connectCb n s).last_image_msg = s.last_image_msg ∧
    (connectCb n s).last_request = s.last_request ∧
    (connectCb n s).image_publish_timer = s.image_publish_timer ∧
    (connectCb n s).max_video_framerate = s.max_video_framerate := by
  unfold connectCb
  by_cases h : n = 0
  · simp [h]
  · by_cases h2 : s.sub_active = false <;> simp [h, h2]

theorem imageRequestCb_last_request (tf : Transform) (s : NodeletState)
    (req : DownSampledImageRequest) :
    (imageRequestCb tf s req).1.last_request = some req := by
  rw [imageRequestCb_fst]; split <;> rfl

theorem imageRequestCb_max (tf : Transform) (s : NodeletState)
    (req : DownSampledImageRequest) :
    (imageRequestCb tf s req).1.max_video_framerate = s.max_video_framerate := by
  rw [imageRequestCb_fst]; split <;> rfl

theorem imageRequestCb_image (tf : Transform) (s : NodeletState)
    (req : DownSampledImageRequest) :
    (imageRequestCb tf s req).1.last_image_msg = s.last_image_msg := by
  rw [imageRequestCb_fst]; split <;> rfl

theorem imageRequestCb_timer (tf : Transform) (s : NodeletState)
    (req : DownSampledImageRequest) :
    (imageRequestCb tf s req).1.image_publish_timer =
      if req.mode = DownSampledImageRequest.PUBLISH_FREQ ∧
          0 < ratMin s.max_video_framerate req.publish_frequency then
        some ⟨s.timer_seq, 1 / ratMin s.max_video_framerate req.publish_frequency⟩
      else s.image_publish_timer := by
  rw [imageRequestCb_fst]; split <;> rfl

theorem step_fst_request (tf : Transform) (s : NodeletState)
    (req : DownSampledImageRequest) :
    (step tf s (Event.request req)).1 = (imageRequestCb tf s req).1 := rfl

theorem step_snd_request (tf : Transform) (s : NodeletState)
    (req : DownSampledImageRequest) :
    (step tf s (Event.request req)).2 = (imageRequestCb tf s req).2 := rfl

theorem step_fst_frame (tf : Transform) (s : NodeletState) (img : Image)
    (info : CameraInfo) :
    (step tf s (Event.frame img info)).1 = (imageCb tf s img info).1 := rfl

theorem step_snd_frame (tf : Transform) (s : NodeletState) (img : Image)
    (info : CameraInfo) :
    (step tf s (Event.frame img info)).2 = (imageCb tf s img info).2 := rfl

theorem step_fst_connect (tf : Transform) (s : NodeletState) (n : Nat) :
    (step tf s (Event.connect n)).1 = connectCb n s := rfl

theorem step_snd_connect (tf : Transform) (s : NodeletState) (n : Nat) :
    (step tf s (Event.connect n)).2 = noOutput := rfl

theorem step_max (tf : Transform) (s : NodeletState) (ev : Event) :
    (step tf s ev).1.max_video_framerate = s.max_video_framerate := by
  cases ev with
  | frame img info => rw [step_fst_frame, imageCb_fst]
  | request req => rw [step_fst_request, imageRequestCb_max]
  | timerTick => rw [step_fst_tick]
  | connect n => rw [step_fst_connect]; exact (connectCb_fields n s).2.2.2

theorem step_last_request_of_ne (tf : Transform) (s : NodeletState) (ev : Event)
    (h : ∀ r, ev ≠ Event.request r) :
    (step tf s ev).1.last_request = s.last_request := by
  cases ev with
  | frame img info => rw [step_fst_frame, imageCb_fst]
  | request req => exact absurd rfl (h req)
  | timerTick => rw [step_fst_tick]
  | connect n => rw [step_fst_connect]; exact (connectCb_fields n s).2.1

theorem step_timer_of_ne (tf : Transform) (s : NodeletState) (ev : Event)
    (h : ∀ r, ev ≠ Event.request r) :
    (step tf s ev).1.image_publish_timer = s.image_publish_timer := by
  cases ev with
  | frame img info => rw [step_fst_frame, imageCb_fst]
  | request req => exact absurd rfl (h req)
  | timerTick => rw [step_fst_tick]
  | connect n => rw [step_fst_connect]; exact (connectCb_fields n s).2.2.1

theorem step_image_of_ne_frame (tf : Transform) (s : NodeletState) (ev : Event)
    (h : ∀ i c, ev ≠ Event.frame i c) :
    (step tf s ev).1.last_image_msg = s.last_image_msg := by
  cases ev with
  | frame img info => exact absurd rfl (h img info)
  | request req => rw [step_fst_request, imageRequestCb_image]
  | timerTick => rw [step_fst_tick]
  | connect n => rw [step_fst_connect]; exact (connectCb_fields n s).1

theorem runFrom_nil (tf : Transform) (s : NodeletState) :
    runFrom tf s [] = (s, noOutput) := rfl

theorem runFrom_cons (tf : Transform) (s : NodeletState) (ev : Event)
    (evs : List Event) :
    runFrom tf s (ev :: evs) =
      ((runFrom tf (step tf s ev).1 evs).1,
       Output.append (step tf s ev).2 (runFrom tf (step tf s ev).1 evs).2) := rfl

theorem append_attempts (a b : Output) :
    (Output.append a b).attempts = a.attempts + b.attempts := rfl

theorem append_published (a b : Output) :
    (Output.append a b).published = a.published ++ b.published := rfl

theorem step_tick_snd_of_quiet (tf : Transform) (s : NodeletState)
    (hq : QuietState s) : (step tf s Event.timerTick).2 = noOutput := by
  obtain ⟨r, hr, _, hfreq⟩ := hq
  show (match s.image_publish_timer with
        | none => (s, noOutput)
        | some _ =>
            match publishTimerCb tf s with
            | some res => res
            | none => (s, noOutput)).2 = noOutput
  cases ht : s.image_publish_timer with
  | none => rfl
  | some t =>
      have hm : r.mode ≠ DownSampledImageRequest.PUBLISH_FREQ := by
        intro hm
        rw [hfreq hm] at ht
        exact Option.noConfusion ht
      rw [publishTimerCb_of_not_freq tf s r hr hm]

theorem quiet_step (tf : Transform) (s : NodeletState) (ev : Event)
    (hq : QuietState s) (h : ∀ r, ev ≠ Event.request r) :
    QuietState (step tf s ev).1 ∧ (step tf s ev).2.attempts = 0 := by
  obtain ⟨r, hr, hall, hfreq⟩ := hq
  constructor
  · refine ⟨r, ?_, hall, ?_⟩
    · rw [step_last_request_of_ne tf s ev h]; exact hr
    · intro hm
      rw [step_timer_of_ne tf s ev h]; exact hfreq hm
  · cases ev with
    | frame img info =>
        rw [step_snd_frame, imageCb_snd_of_not_all tf s img info r hr hall]
        rfl
    | request req => exact absurd rfl (h req)
    | timerTick =>
        rw [step_tick_snd_of_quiet tf s ⟨r, hr, hall, hfreq⟩]
        rfl
    | connect n =>
        rw [step_snd_connect]
        rfl

theorem quiet_run (tf : Transform) (evs : List Event) :
    ∀ s : NodeletState, QuietState s → (∀ r, Event.request r ∉ evs) →
      (runFrom tf s evs).2.attempts = 0 := by
  induction evs with
  | nil => intro s _ _; rfl
  | cons ev evs ih =>
      intro s hq hnr
      have hev : ∀ r, ev ≠ Event.request r := by
        intro r he
        exact hnr r (he ▸ List.mem_cons_self ev evs)
      obtain ⟨hq1, ha⟩ := quiet_step tf s ev hq hev
      rw [runFrom_cons]
      show (Output.append (step tf s ev).2 (runFrom tf (step tf s ev).1 evs).2).attempts = 0
      rw [append_attempts, ha,
        ih (step tf s ev).1 hq1 (fun r hm => hnr r (List.mem_cons_of_mem ev hm))]

theorem step_published_of_no_image (tf : Transform) (s : NodeletState)
    (ev : Event) (him : s.last_image_msg = none)
    (hev : ∀ i c, ev ≠ Event.frame i c) :
    (step tf s ev).2.published = [] := by
  cases ev with
  | frame img info => exact absurd rfl (hev img info)
  | request req =>
      rw [step_snd_request, imageRequestCb_snd]
      exact publishCroppedImage_published_of_no_image tf _ him
  | timerTick =>
      show (match s.image_publish_timer with
            | none => (s, noOutput)
            | some _ =>
                match publishTimerCb tf s with
                | some res => res
                | none => (s, noOutput)).2.published = []
      cases s.image_publish_timer with
      | none => rfl
      | some t =>
          show (match publishTimerCb tf s with
                | some res => res
                | none => (s, noOutput)).2.published = []
          unfold publishTimerCb
          cases s.last_request with
          | none => rfl
          | some r =>
              by_cases hm : r.mode = DownSampledImageRequest.PUBLISH_FREQ
              · simp only [hm]
                simp only [ne_eq, not_true_eq_false, if_false]
                exact publishCroppedImage_published_of_no_image tf s him
              · simp only [ne_eq, hm, not_false_eq_true, if_true]
                rfl
  | connect n =>
      rw [step_snd_connect]
      rfl

theorem no_frame_run (tf : Transform) (evs : List Event) :
    ∀ s : NodeletState, s.last_image_msg = none →
      (∀ i c, Event.frame i c ∉ evs) →
      (runFrom tf s evs).2.published = [] := by
  induction evs with
  | nil => intro s _ _; rfl
  | cons ev evs ih =>
      intro s him hnf
      have hev : ∀ i c, ev ≠ Event.frame i c := by
        intro i c he
        exact hnf i c (he ▸ List.mem_cons_self ev evs)
      rw [runFrom_cons]
      show (Output.append (step tf s ev).2 (runFrom tf (step tf s ev).1 evs).2).published = []
      rw [append_published, step_published_of_no_image tf s ev him hev,
        ih (step tf s ev).1 (by rw [step_image_of_ne_frame tf s ev hev]; exact him)
          (fun i c hm => hnf i c (List.mem_cons_of_mem ev hm))]
      rfl

theorem run_timer_iff (tf : Transform) (m : Rat) (evs : List Event) :
    ∀ s : NodeletState, s.max_video_framerate = m →
      ((runFrom tf s evs).1.image_publish_timer ≠ none ↔
        s.image_publish_timer ≠ none ∨
        ∃ req, Event.request req ∈ evs ∧
          req.mode = DownSampledImageRequest.PUBLISH_FREQ ∧
          0 < ratMin m req.publish_frequency) := by
  induction evs with
  | nil =>
      intro s _
      rw [runFrom_nil]
      simp
  | cons ev evs ih =>
      intro s hm
      rw [runFrom_cons]
      show ((runFrom tf (step tf s ev).1 evs).1.image_publish_timer ≠ none ↔ _)
      rw [ih (step tf s ev).1 (by rw [step_max]; exact hm)]
      cases ev with
      | request req =>
          rw [step_fst_request, imageRequestCb_timer]
          subst hm
          by_cases hc : req.mode = DownSampledImageRequest.PUBLISH_FREQ ∧
              0 < ratMin s.max_video_framerate req.publish_frequency
          · rw [if_pos hc]
            refine iff_of_true (Or.inl (by simp)) (Or.inr ⟨req, List.mem_cons_self _ _, hc⟩)
          · rw [if_neg hc]
            constructor
            · rintro (ht | ⟨r, hmem, hr⟩)
              · exact Or.inl ht
              · exact Or.inr ⟨r, List.mem_cons_of_mem _ hmem, hr⟩
            · rintro (ht | ⟨r, hmem, hr⟩)
              · exact Or.inl ht
              · rcases List.mem_cons.mp hmem with heq | hmem2
                · cases heq
                  exact absurd hr hc
                · exact Or.inr ⟨r, hmem2, hr⟩
      | frame img info =>
          rw [step_timer_of_ne tf s _ (by intro r h; cases h)]
          constructor
          · rintro (ht | ⟨r, hmem, hr⟩)
            · exact Or.inl ht
            · exact Or.inr ⟨r, List.mem_cons_of_mem _ hmem, hr⟩
          · rintro (ht | ⟨r, hmem, hr⟩)
            · exact Or.inl ht
            · rcases List.mem_cons.mp hmem with heq | hmem2
              · cases heq
              · exact Or.inr ⟨r, hmem2, hr⟩
      | timerTick =>
          rw [step_timer_of_ne tf s _ (by intro r h; cases h)]
          constructor
          · rintro (ht | ⟨r, hmem, hr⟩)
            · exact Or.inl ht
            · exact Or.inr ⟨r, List.mem_cons_of_mem _ hmem, hr⟩
          · rintro (ht | ⟨r, hmem, hr⟩)
            · exact Or.inl ht
            · rcases List.mem_cons.mp hmem with heq | hmem2
              · cases heq
              · exact Or.inr ⟨r, hmem2, hr⟩
      | connect n =>
          rw [step_timer_of_ne tf s _ (by intro r h; cases h)]
          constructor
          · rintro (ht | ⟨r, hmem, hr⟩)
            · exact Or.inl ht
            · exact Or.inr ⟨r, List.mem_cons_of_mem _ hmem, hr⟩
          · rintro (ht | ⟨r, hmem, hr⟩)
            · exact Or.inl ht
            · rcases List.mem_cons.mp hmem with heq | hmem2
              · cases heq
              · exact Or.inr ⟨r, hmem2, hr⟩

theorem run_timer_request_inv (tf : Transform) (evs : List Event) :
    ∀ s : NodeletState,
      (s.image_publish_timer ≠ none → s.last_request ≠ none) →
      ((runFrom tf s evs).1.image_publish_timer ≠ none →
        (runFrom tf s evs).1.last_request ≠ none) := by
  induction evs with
  | nil => intro s h; rw [runFrom_nil]; exact h
  | cons ev evs ih =>
      intro s h
      rw [runFrom_cons]
      apply ih
      cases ev with
      | request req =>
          intro _
          rw [step_fst_request, imageRequestCb_last_request]
          exact Option.noConfusion
      | frame img info =>
          have hne : ∀ r, Event.frame img info ≠ Event.request r := by
            intro r hcontra; cases hcontra
          rw [step_timer_of_ne tf s _ hne, step_last_request_of_ne tf s _ hne]
          exact h
      | timerTick =>
          rw [step_fst_tick]
          exact h
      | connect n =>
          have hne : ∀ r, Event.connect n ≠ Event.request r := by
            intro r hcontra; cases hcontra
          rw [step_timer_of_ne tf s _ hne, step_last_request_of_ne tf s _ hne]
          exact h

theorem imageRequestCb_config (tf : Transform) (s : NodeletState)
    (req : DownSampledImageRequest) :
    (imageRequestCb tf s req).1.crop_decimate_config = requestConfig req := by
  rw [imageRequestCb_fst]; split <;> rfl

theorem imageRequestCb_configured (tf : Transform) (s : NodeletState)
    (req : DownSampledImageRequest) :
    (imageRequestCb tf s req).1.crop_decimate_configured = true := by
  rw [imageRequestCb_fst]; split <;> rfl

theorem publishCroppedImage_of_some (tf : Transform) (s : NodeletState)
    (img : Image) (info : CameraInfo) (hi : s.last_image_msg = some img)
    (hc : s.last_info_msg = some info) :
    publishCroppedImage tf s =
      match tf s.crop_decimate_config img info with
      | some out => ⟨1, 1, [out]⟩
      | none => ⟨1, 1, []⟩ := by
  unfold publishCroppedImage
  rw [hi, hc]

theorem publishCroppedImage_of_absent (tf : Transform) (s : NodeletState)
    (h : s.last_image_msg = none ∨ s.last_info_msg = none) :
    publishCroppedImage tf s = ⟨1, 0, []⟩ := by
  unfold publishCroppedImage
  cases hi : s.last_image_msg with
  | none => rfl
  | some img =>
      cases hc : s.last_info_msg with
      | none => rfl
      | some info =>
          rcases h with h | h
          · rw [hi] at h; exact Option.noConfusion h
          · rw [hc] at h; exact Option.noConfusion h

theorem step_tick_noop_of_not_freq (tf : Transform) (s : NodeletState)
    (r : DownSampledImageRequest) (hr : s.last_request = some r)
    (hm : r.mode ≠ DownSampledImageRequest.PUBLISH_FREQ) :
    step tf s Event.timerTick = (s, noOutput) := by
  show (match s.image_publish_timer with
        | none => (s, noOutput)
        | some _ =>
            match publishTimerCb tf s with
            | some res => res
            | none => (s, noOutput)) = (s, noOutput)
  cases s.image_publish_timer with
  | none => rfl
  | some t => rw [publishTimerCb_of_not_freq tf s r hr hm]

theorem step_fst_tf_independent (tf tf' : Transform) (s : NodeletState)
    (ev : Event) : (step tf s ev).1 = (step tf' s ev).1 := by
  cases ev with
  | frame img info => rw [step_fst_frame, step_fst_frame, imageCb_fst, imageCb_fst]
  | request req => rw [step_fst_request, step_fst_request,
      imageRequestCb_fst, imageRequestCb_fst]
  | timerTick => rw [step_fst_tick, step_fst_tick]
  | connect n => rfl

/-- Claim C1 counterexample: imageRequestCb does not cancel a previously
armed timer regardless of mode.  In the reachable state sPeriodic5 a timer
(creation sequence number 0) armed by an earlier PERIODIC request is active;
processing a ONCE request returns with that very same timer still armed. -/
theorem C1_counterexample :
    (imageRequestCb tfId sPeriodic5 reqOnce).1.image_publish_timer =
        sPeriodic5.image_publish_timer ∧
    sPeriodic5.image_publish_timer = some ⟨0, 1 / ratMin 100 5⟩ ∧
    reachable tfId 100 sPeriodic5 :=
  ⟨rfl, rfl, ⟨[Event.request reqPeriodic5], rfl⟩⟩

/-- Claim C1 (amended): processing a request cancels (by replacing it with a
freshly created one) a previously armed recurring timer exactly when the new
request has mode PUBLISH_FREQ and its capped frequency is strictly positive;
for every other request the previously armed timer is still active after the
handler returns, and only the mode guard of the tick handler keeps its
subsequent ticks benign. -/
theorem C1_request_timer (tf : Transform) (s : NodeletState)
    (req : DownSampledImageRequest) :
    (imageRequestCb tf s req).1.image_publish_timer =
      if req.mode = DownSampledImageRequest.PUBLISH_FREQ ∧
          0 < ratMin s.max_video_framerate req.publish_frequency then
        some ⟨s.timer_seq, 1 / ratMin s.max_video_framerate req.publish_frequency⟩
      else s.image_publish_timer :=
  imageRequestCb_timer tf s req

/-- Claim C2 counterexample: sStale is reachable (PERIODIC request at 5 Hz,
then ONCE request), has an armed timer, yet its current request mode is
ONCE, not PERIODIC — refuting the claimed if-and-only-if invariant. -/
theorem C2_counterexample :
    reachable tfId 100 sStale ∧
    sStale.image_publish_timer = some ⟨0, 1 / ratMin 100 5⟩ ∧
    sStale.last_request = some reqOnce ∧
    reqOnce.mode = DownSampledImageRequest.ONCE ∧
    DownSampledImageRequest.ONCE ≠ DownSampledImageRequest.PUBLISH_FREQ :=
  ⟨⟨[Event.request reqPeriodic5, Event.request reqOnce], rfl⟩, rfl, rfl, rfl,
   by decide⟩

/-- Claim C2 (amended): in every reachable state a recurring timer is active
if and only if some request processed so far had mode PUBLISH_FREQ with
strictly positive capped frequency (the single timer member makes more than
one active timer impossible); in particular an armed timer can outlive the
request that armed it, also under a current mode other than PERIODIC. -/
theorem C2_timer_iff_past_periodic (tf : Transform) (m : Rat)
    (evs : List Event) :
    (runFrom tf (initState m) evs).1.image_publish_timer ≠ none ↔
      ∃ req, Event.request req ∈ evs ∧
        req.mode = DownSampledImageRequest.PUBLISH_FREQ ∧
        0 < ratMin m req.publish_frequency := by
  have h := run_timer_iff tf m evs (initState m) rfl
  rw [h]
  have hinit : (initState m).image_publish_timer = none := rfl
  rw [hinit]
  simp

/-- Claim C3 counterexample: in the reachable state sStaleFreq0 (frame
cached, PERIODIC request at 5 Hz, then PERIODIC request at 0 Hz) the old
5 Hz timer is still armed even though the current requested frequency is 0,
and its next tick makes a publish attempt and actually publishes — refuting
that no recurring timer causes further publishes regardless of the arrival
state. -/
theorem C3_counterexample :
    reqPeriodic0.mode = DownSampledImageRequest.PUBLISH_FREQ ∧
    reqPeriodic0.publish_frequency = 0 ∧
    reachable tfId 100 sStaleFreq0 ∧
    sStaleFreq0.last_request = some reqPeriodic0 ∧
    sStaleFreq0.image_publish_timer = some ⟨0, 1 / ratMin 100 5⟩ ∧
    (step tfId sStaleFreq0 Event.timerTick).2 = ⟨1, 1, [(img0, info0)]⟩ :=
  ⟨rfl, rfl,
   ⟨[Event.frame img0 info0, Event.request reqPeriodic5,
     Event.request reqPeriodic0], rfl⟩, rfl, rfl, rfl⟩

/-- Claim C3 (amended): a PERIODIC request with requested frequency 0 makes
exactly one immediate publish attempt and arms no timer (the timer member is
left exactly as it was); provided no timer from an earlier request is still
armed, no further publish attempt occurs until the next request.  (If a
stale timer is still armed, it keeps firing and — the current mode being
PUBLISH_FREQ — keeps publishing, as the counterexample shows.) -/
theorem C3_freq0 (tf : Transform) (s : NodeletState)
    (req : DownSampledImageRequest)
    (h1 : req.mode = DownSampledImageRequest.PUBLISH_FREQ)
    (h2 : req.publish_frequency = 0) :
    (imageRequestCb tf s req).2.attempts = 1 ∧
    (imageRequestCb tf s req).1.image_publish_timer = s.image_publish_timer ∧
    (s.image_publish_timer = none →
      ∀ evs : List Event, (∀ r, Event.request r ∉ evs) →
        (runFrom tf (imageRequestCb tf s req).1 evs).2.attempts = 0) := by
  have hnonpos : ¬ 0 < ratMin s.max_video_framerate req.publish_frequency := by
    rw [h2]
    unfold ratMin
    split
    · next hle => exact fun hlt => absurd (lt_of_lt_of_le hlt hle) (lt_irrefl 0)
    · exact lt_irrefl 0
  have htimer : (imageRequestCb tf s req).1.image_publish_timer =
      s.image_publish_timer := by
    rw [imageRequestCb_timer]
    exact if_neg (fun hc => hnonpos hc.2)
  refine ⟨imageRequestCb_attempts tf s req, htimer, ?_⟩
  intro hnone evs hnr
  apply quiet_run
  · refine ⟨req, imageRequestCb_last_request tf s req, ?_, ?_⟩
    · rw [h1]; decide
    · intro _
      rw [htimer]
      exact hnone
  · exact hnr

/-- Claim C3 witness: the amended theorem applied to the 0 Hz PERIODIC
request arriving in the initial (timer-free) state. -/
theorem C3_witness :
    reqPeriodic0.mode = DownSampledImageRequest.PUBLISH_FREQ ∧
    reqPeriodic0.publish_frequency = 0 ∧
    ((imageRequestCb tfId (initState 100) reqPeriodic0).2.attempts = 1 ∧
     (imageRequestCb tfId (initState 100) reqPeriodic0).1.image_publish_timer =
       (initState 100).image_publish_timer ∧
     ((initState 100).image_publish_timer = none →
       ∀ evs : List Event, (∀ r, Event.request r ∉ evs) →
         (runFrom tfId (imageRequestCb tfId (initState 100) reqPeriodic0).1
           evs).2.attempts = 0)) :=
  ⟨rfl, rfl, C3_freq0 tfId (initState 100) reqPeriodic0 rfl rfl⟩

/-- Claim C4: a ONCE request makes exactly one publish attempt at
request-arrival time; until the next request every further event (frame
arrival, timer tick, connection change) makes zero publish attempts; and in
any state whose current request is that ONCE request a tick of a stale timer
is a complete no-op, because the tick handler returns unless the current
mode is PUBLISH_FREQ. -/
theorem C4_once_requests (tf : Transform) (s : NodeletState)
    (req : DownSampledImageRequest)
    (h : req.mode = DownSampledImageRequest.ONCE) :
    (imageRequestCb tf s req).2.attempts = 1 ∧
    (∀ evs : List Event, (∀ r, Event.request r ∉ evs) →
      (runFrom tf (imageRequestCb tf s req).1 evs).2.attempts = 0) ∧
    (∀ s' : NodeletState, s'.last_request = some req →
      step tf s' Event.timerTick = (s', noOutput)) := by
  refine ⟨imageRequestCb_attempts tf s req, ?_, ?_⟩
  · intro evs hnr
    apply quiet_run
    · refine ⟨req, imageRequestCb_last_request tf s req, ?_, ?_⟩
      · rw [h]; decide
      · intro hm
        rw [h] at hm
        exact absurd hm (by decide)
    · exact hnr
  · intro s' hs'
    exact step_tick_noop_of_not_freq tf s' req hs' (by rw [h]; decide)

/-- Claim C4 witness: the theorem applied to the concrete ONCE request in
the stale-timer state sPeriodic5. -/
theorem C4_witness :
    reqOnce.mode = DownSampledImageRequest.ONCE ∧
    ((imageRequestCb tfId sPeriodic5 reqOnce).2.attempts = 1 ∧
     (∀ evs : List Event, (∀ r, Event.request r ∉ evs) →
       (runFrom tfId (imageRequestCb tfId sPeriodic5 reqOnce).1
         evs).2.attempts = 0) ∧
     (∀ s' : NodeletState, s'.last_request = some reqOnce →
       step tfId s' Event.timerTick = (s', noOutput))) :=
  ⟨rfl, C4_once_requests tfId sPeriodic5 reqOnce rfl⟩

/-- Claim C5: a PERIODIC request makes one immediate publish attempt, and
when the capped frequency (std::min of the configured cap and the requested
frequency) is strictly positive, a timer with period 1 over that capped
frequency is armed. -/
theorem C5_periodic_rate (tf : Transform) (s : NodeletState)
    (req : DownSampledImageRequest)
    (h : req.mode = DownSampledImageRequest.PUBLISH_FREQ) :
    (imageRequestCb tf s req).2.attempts = 1 ∧
    (0 < ratMin s.max_video_framerate req.publish_frequency →
      (imageRequestCb tf s req).1.image_publish_timer =
        some ⟨s.timer_seq,
              1 / ratMin s.max_video_framerate req.publish_frequency⟩) := by
  refine ⟨imageRequestCb_attempts tf s req, ?_⟩
  intro hp
  rw [imageRequestCb_timer]
  exact if_pos ⟨h, hp⟩

/-- Claim C5 witness: requested 10 Hz against a configured cap of 5 Hz
yields the capped frequency 5 and an armed timer with period 1/5. -/
theorem C5_witness :
    reqPeriodic10.mode = DownSampledImageRequest.PUBLISH_FREQ ∧
    ratMin (initState 5).max_video_framerate reqPeriodic10.publish_frequency = 5 ∧
    ((imageRequestCb tfId (initState 5) reqPeriodic10).2.attempts = 1 ∧
     (0 < ratMin (initState 5).max_video_framerate reqPeriodic10.publish_frequency →
       (imageRequestCb tfId (initState 5) reqPeriodic10).1.image_publish_timer =
         some ⟨(initState 5).timer_seq,
               1 / ratMin (initState 5).max_video_framerate
                     reqPeriodic10.publish_frequency⟩)) ∧
    (imageRequestCb tfId (initState 5) reqPeriodic10).1.image_publish_timer =
      some ⟨0, 1 / 5⟩ := by
  have happ := C5_periodic_rate tfId (initState 5) reqPeriodic10 rfl
  have hmin : ratMin (initState 5).max_video_framerate
      reqPeriodic10.publish_frequency = 5 := by decide
  refine ⟨rfl, hmin, happ, ?_⟩
  have hpos : (0 : Rat) < ratMin (initState 5).max_video_framerate
      reqPeriodic10.publish_frequency := by decide
  rw [happ.2 hpos, hmin]
  rfl

/-- Claim C6: on frame arrival the pair is cached (overwriting), the handler
publishes nothing when no request was ever received, makes exactly one
publish attempt — transforming the just-arrived frame with the current crop
configuration — when the current mode is ALL, and makes no attempt in any
other mode. -/
theorem C6_frame_arrival (tf : Transform) (s : NodeletState) (img : Image)
    (info : CameraInfo) :
    (imageCb tf s img info).1.last_image_msg = some img ∧
    (imageCb tf s img info).1.last_info_msg = some info ∧
    (s.last_request = none → (imageCb tf s img info).2 = noOutput) ∧
    (∀ req, s.last_request = some req →
      (req.mode = DownSampledImageRequest.ALL →
        (imageCb tf s img info).2.attempts = 1 ∧
        (imageCb tf s img info).2.published =
          (match tf s.crop_decimate_config img info with
           | some out => [out]
           | none => [])) ∧
      (req.mode ≠ DownSampledImageRequest.ALL →
        (imageCb tf s img info).2 = noOutput)) := by
  refine ⟨by rw [imageCb_fst], by rw [imageCb_fst], ?_, ?_⟩
  · intro h
    exact imageCb_snd_of_no_request tf s img info h
  · intro req hreq
    constructor
    · intro hall
      rw [imageCb_snd_of_all tf s img info req hreq hall]
      rw [publishCroppedImage_of_some tf _ img info rfl rfl]
      cases tf s.crop_decimate_config img info with
      | some out => exact ⟨rfl, rfl⟩
      | none => exact ⟨rfl, rfl⟩
    · intro hnall
      exact imageCb_snd_of_not_all tf s img info req hreq hnall

/-- Claim C6 witness: the theorem applied to a frame arriving in the
reachable state sAll whose current request has mode ALL. -/
theorem C6_witness :
    sAll.last_request = some reqAll ∧
    reqAll.mode = DownSampledImageRequest.ALL ∧
    ((imageCb tfId sAll img0 info0).1.last_image_msg = some img0 ∧
     (imageCb tfId sAll img0 info0).1.last_info_msg = some info0 ∧
     (sAll.last_request = none → (imageCb tfId sAll img0 info0).2 = noOutput) ∧
     (∀ req, sAll.last_request = some req →
       (req.mode = DownSampledImageRequest.ALL →
         (imageCb tfId sAll img0 info0).2.attempts = 1 ∧
         (imageCb tfId sAll img0 info0).2.published =
           (match tfId sAll.crop_decimate_config img0 info0 with
            | some out => [out]
            | none => [])) ∧
       (req.mode ≠ DownSampledImageRequest.ALL →
         (imageCb tfId sAll img0 info0).2 = noOutput))) :=
  ⟨rfl, rfl, C6_frame_arrival tfId sAll img0 info0⟩

/-- Claim C7: the publish primitive returns the silent one-attempt effect
(no transform call, nothing published) whenever the cached image or camera
info is absent; with both present it calls the transform exactly once and
publishes its output pair exactly when the transform succeeds; the
controller state after any event is independent of the transform (so a
transform failure changes no controller state); and from a state with no
cached image, any frame-free event sequence publishes nothing. -/
theorem C7_publish_primitive (tf : Transform) (s : NodeletState) :
    ((s.last_image_msg = none ∨ s.last_info_msg = none) →
      publishCroppedImage tf s = ⟨1, 0, []⟩) ∧
    (∀ img info, s.last_image_msg = some img → s.last_info_msg = some info →
      (publishCroppedImage tf s).transformCalls = 1 ∧
      (publishCroppedImage tf s).published =
        (match tf s.crop_decimate_config img info with
         | some out => [out]
         | none => [])) ∧
    (∀ tf' : Transform, ∀ ev : Event, (step tf s ev).1 = (step tf' s ev).1) ∧
    (s.last_image_msg = none →
      ∀ evs : List Event, (∀ i c, Event.frame i c ∉ evs) →
        (runFrom tf s evs).2.published = []) := by
  refine ⟨publishCroppedImage_of_absent tf s, ?_, ?_, ?_⟩
  · intro img info hi hc
    rw [publishCroppedImage_of_some tf s img info hi hc]
    cases tf s.crop_decimate_config img info with
    | some out => exact ⟨rfl, rfl⟩
    | none => exact ⟨rfl, rfl⟩
  · intro tf' ev
    exact step_fst_tf_independent tf tf' s ev
  · intro him evs hnf
    exact no_frame_run tf evs s him hnf

/-- Claim C7 witness: the theorem applied to the initial state, in which
both caches are empty. -/
theorem C7_witness :
    (initState 100).last_image_msg = none ∧
    (((initState 100).last_image_msg = none ∨
        (initState 100).last_info_msg = none) →
      publishCroppedImage tfId (initState 100) = ⟨1, 0, []⟩) ∧
    (∀ img info, (initState 100).last_image_msg = some img →
      (initState 100).last_info_msg = some info →
      (publishCroppedImage tfId (initState 100)).transformCalls = 1 ∧
      (publishCroppedImage tfId (initState 100)).published =
        (match tfId (initState 100).crop_decimate_config img info with
         | some out => [out]
         | none => [])) ∧
    (∀ tf' : Transform, ∀ ev : Event,
      (step tfId (initState 100) ev).1 = (step tf' (initState 100) ev).1) ∧
    ((initState 100).last_image_msg = none →
      ∀ evs : List Event, (∀ i c, Event.frame i c ∉ evs) →
        (runFrom tfId (initState 100) evs).2.published = []) := by
  have h := C7_publish_primitive tfId (initState 100)
  exact ⟨rfl, h.1, h.2.1, h.2.2.1, h.2.2.2⟩

/-- Claim C8: after connectCb runs for a consumer count, the upstream
subscription is open exactly when the count is nonzero, and running it again
with the same count changes nothing (closing a closed or opening an open
subscription is a no-op; the single subscriber handle rules out a double
subscription). -/
theorem C8_connect_gate (n : Nat) (s : NodeletState) :
    ((connectCb n s).sub_active = true ↔ n ≠ 0) ∧
    connectCb n (connectCb n s) = connectCb n s := by
  unfold connectCb
  by_cases h : n = 0
  · simp [h]
  · by_cases h2 : s.sub_active = false
    · simp [h, h2]
    · simp [h, h2]

/-- Claim C8 witness: the gate evaluated at consumer counts one and zero on
the initial (unsubscribed) state. -/
theorem C8_witness :
    (((connectCb 1 (initState 100)).sub_active = true ↔ (1 : Nat) ≠ 0) ∧
      connectCb 1 (connectCb 1 (initState 100)) = connectCb 1 (initState 100)) ∧
    (((connectCb 0 (initState 100)).sub_active = true ↔ (0 : Nat) ≠ 0) ∧
      connectCb 0 (connectCb 0 (initState 100)) = connectCb 0 (initState 100)) :=
  ⟨C8_connect_gate 1 (initState 100), C8_connect_gate 0 (initState 100)⟩

/-- Claim C9: a request whose mode is none of ONCE, PUBLISH_FREQ and ALL is
not rejected: it falls into the default free-run branch, making exactly one
immediate publish attempt, arming no timer (the timer member is unchanged),
while still replacing the stored request and crop configuration. -/
theorem C9_unrecognized_mode (tf : Transform) (s : NodeletState)
    (req : DownSampledImageRequest)
    (_h1 : req.mode ≠ DownSampledImageRequest.ONCE)
    (h2 : req.mode ≠ DownSampledImageRequest.PUBLISH_FREQ)
    (_h3 : req.mode ≠ DownSampledImageRequest.ALL) :
    (imageRequestCb tf s req).2.attempts = 1 ∧
    (imageRequestCb tf s req).1.image_publish_timer = s.image_publish_timer ∧
    (imageRequestCb tf s req).1.last_request = some req ∧
    (imageRequestCb tf s req).1.crop_decimate_config = requestConfig req ∧
    (imageRequestCb tf s req).1.crop_decimate_configured = true := by
  refine ⟨imageRequestCb_attempts tf s req, ?_,
    imageRequestCb_last_request tf s req, imageRequestCb_config tf s req,
    imageRequestCb_configured tf s req⟩
  rw [imageRequestCb_timer]
  exact if_neg (fun hc => h2 hc.1)

/-- Claim C9 witness: the theorem applied to the concrete request with the
unrecognized mode 7, arriving in the stale-timer state sPeriodic5. -/
theorem C9_witness :
    reqUnknown.mode = 7 ∧
    ((imageRequestCb tfId sPeriodic5 reqUnknown).2.attempts = 1 ∧
     (imageRequestCb tfId sPeriodic5 reqUnknown).1.image_publish_timer =
       sPeriodic5.image_publish_timer ∧
     (imageRequestCb tfId sPeriodic5 reqUnknown).1.last_request =
       some reqUnknown ∧
     (imageRequestCb tfId sPeriodic5 reqUnknown).1.crop_decimate_config =
       requestConfig reqUnknown ∧
     (imageRequestCb tfId sPeriodic5 reqUnknown).1.crop_decimate_configured =
       true) :=
  ⟨rfl, C9_unrecognized_mode tfId sPeriodic5 reqUnknown (by decide) (by decide)
    (by decide)⟩

/-- Claim C10: in every reachable state with an armed timer the stored
request is non-null, so the tick handler's unguarded read of the request
mode never dereferences an absent request (publishTimerCb is defined,
returning some result, on every such state). -/
theorem C10_tick_safe (tf : Transform) (m : Rat) (s : NodeletState)
    (h : reachable tf m s) (ht : s.image_publish_timer ≠ none) :
    s.last_request ≠ none ∧ (publishTimerCb tf s).isSome := by
  obtain ⟨evs, hrun⟩ := h
  have hbase : (initState m).image_publish_timer ≠ none →
      (initState m).last_request ≠ none := fun hti => absurd rfl hti
  have hreq : s.last_request ≠ none := by
    rw [← hrun]
    rw [← hrun] at ht
    exact run_timer_request_inv tf evs (initState m) hbase ht
  exact ⟨hreq, publishTimerCb_isSome tf s hreq⟩

/-- Claim C10 witness: the theorem applied to the reachable state
sPeriodic5, in which a timer is armed. -/
theorem C10_witness :
    reachable tfId 100 sPeriodic5 ∧
    sPeriodic5.image_publish_timer ≠ none ∧
    (sPeriodic5.last_request ≠ none ∧ (publishTimerCb tfId sPeriodic5).isSome) := by
  have hreach : reachable tfId 100 sPeriodic5 :=
    ⟨[Event.request reqPeriodic5], rfl⟩
  have hsome : sPeriodic5.image_publish_timer = some ⟨0, 1 / ratMin 100 5⟩ := rfl
  have ht : sPeriodic5.image_publish_timer ≠ none := by
    rw [hsome]
    exact fun hcontra => Option.noConfusion hcontra
  exact ⟨hreach, ht, C10_tick_safe tfId 100 sPeriodic5 hreach ht⟩

end VigirCropDecimate
